import Mathlib

/-!
Verification of the NOVA price-proxy server (src/server.js).

Shallow embedding of the price-cache-and-unit-conversion subsystem:

* `calculateWei` — the fiat-to-wei fixed-point converter (src/server.js lines 37-43);
* `convertPricesUsdToWei` — the leaf-walking batch converter (lines 45-67);
* the POL rate cache and its GET handler (lines 19-21, 100-121);
* the admin gate `authenticateAdminKey` (lines 90-96);
* the persisted price store and the POST/GET price handlers (lines 69-233).

Modelling conventions: JavaScript numbers that carry fiat amounts and token
prices are modelled as exact rationals (ℚ); `Math.round(x)` is JavaScript
round-half-up, i.e. `⌊x + 1/2⌋`; BigInt arithmetic is ℤ with truncating
division `Int.tdiv` (JavaScript BigInt `/`); a thrown exception inside an
expression is modelled by `Option`/`none`; `BigInt.prototype.toString` is
`intToString` below.  Mutable module state (`cachedPolPrice`,
`lastPolFetchTime`, the prices file) is passed explicitly; each HTTP handler
is a pure function from the incoming request and the prior state to the new
state and the response.
-/

/-! ## Unit converter: `calculateWei` (src/server.js lines 37-43) -/

/-- The local constant `WEI = BigInt(10) ** BigInt(18)` from the body of `calculateWei`. -/
def WEI : ℤ := 10 ^ 18

/-- Models `BigInt(Math.round(q * 1_000_000))`: scale a decimal to 6 fractional
digits and round to the nearest integer, halves toward +∞ (JavaScript
`Math.round`).  Written over the numerator and denominator of `q` so that the
kernel can evaluate it; `scale6_eq` below states the floor characterisation
`scale6 q = ⌊q * 1000000 + 1/2⌋`. -/
def scale6 (q : ℚ) : ℤ := Int.fdiv (2 * q.num * 1000000 + q.den) (2 * q.den)

/-- Models `BigInt.prototype.toString` in base 10: decimal digits, with a single
leading `-` for negative values and no other characters. -/
def intToString (n : ℤ) : String :=
  if n < 0 then "-" ++ Nat.repr n.natAbs else Nat.repr n.toNat

/-- The function `calculateWei(usdAmount, tokenPrice)` (src/server.js lines 37-43):

```js
const WEI = BigInt(10) ** BigInt(18);
const usdBig = BigInt(Math.round(usdAmount * 1_000_000));
const priceBig = BigInt(Math.round(tokenPrice * 1_000_000));
const result = (usdBig * WEI) / priceBig;
return result.toString();
```

When `priceBig` is `0n` the BigInt division throws a `RangeError`
(division by zero); this is the `none` case.  There is no input
validation of any kind in the source. -/
def calculateWei (usdAmount tokenPrice : ℚ) : Option String :=
  let usdBig := scale6 usdAmount
  let priceBig := scale6 tokenPrice
  if priceBig = 0 then none
  else some (intToString (Int.tdiv (usdBig * WEI) priceBig))

/-! ## Batch converter: `convertPricesUsdToWei` (src/server.js lines 45-67)

A `FiatPriceSpec` is a nested JavaScript object: category name to item map,
where each item value is either a plain number (a fiat amount) or a nested
object mapping tier-index keys to fiat amounts.  `Object.entries`
enumeration order is modelled by association-list order. -/

/-- One leaf pair `{polWei, novaWei}` of the converted document. -/
structure WeiPair where
  polWei : String
  novaWei : String
deriving DecidableEq, Repr

/-- An item value in the fiat spec: `typeof v === 'object' && v !== null`
distinguishes a nested tier map from a plain amount. -/
inductive FiatVal where
  | num (v : ℚ)
  | obj (tiers : List (String × ℚ))
deriving DecidableEq, Repr

/-- An item value in the converted document: a single pair, or a tier map of
pairs. -/
inductive WeiVal where
  | single (p : WeiPair)
  | tiers (m : List (String × WeiPair))
deriving DecidableEq, Repr

/-- The constant `NOVA_PRICE = 0.00007` (src/server.js line 22). -/
def NOVA_PRICE : ℚ := mkRat 7 100000

/-- Conversion of one leaf amount: the body of both loop arms,
`{ polWei: calculateWei(Number(usd), polPrice), novaWei: calculateWei(Number(usd), NOVA_PRICE) }`.
A throw in either call aborts the whole batch (`none`). -/
def convertLeaf (usd polPrice : ℚ) : Option WeiPair :=
  match calculateWei usd polPrice, calculateWei usd NOVA_PRICE with
  | some p, some n => some ⟨p, n⟩
  | _, _ => none

/-- The inner `for (const [idx, usd] of Object.entries(v))` loop: converts a
tier map entry by entry, in enumeration order, keeping each key. -/
def convertTierMap (polPrice : ℚ) : List (String × ℚ) → Option (List (String × WeiPair))
  | [] => some []
  | (idx, usd) :: rest =>
    match convertLeaf usd polPrice, convertTierMap polPrice rest with
    | some p, some r => some ((idx, p) :: r)
    | _, _ => none

/-- The middle `for (const [k, v] of Object.entries(items))` loop. -/
def convertItems (polPrice : ℚ) : List (String × FiatVal) → Option (List (String × WeiVal))
  | [] => some []
  | (k, .num v) :: rest =>
    match convertLeaf v polPrice, convertItems polPrice rest with
    | some p, some r => some ((k, .single p) :: r)
    | _, _ => none
  | (k, .obj m) :: rest =>
    match convertTierMap polPrice m, convertItems polPrice rest with
    | some m', some r => some ((k, .tiers m') :: r)
    | _, _ => none

/-- The function `convertPricesUsdToWei(pricesUsd, polPrice)` (src/server.js lines 45-67):
walks every category, item and tier of the input spec and produces the
converted document, preserving keys and enumeration order. -/
def convertPricesUsdToWei (pricesUsd : List (String × List (String × FiatVal)))
    (polPrice : ℚ) : Option (List (String × List (String × WeiVal))) :=
  match pricesUsd with
  | [] => some []
  | (category, items) :: rest =>
    match convertItems polPrice items, convertPricesUsdToWei rest polPrice with
    | some i, some r => some ((category, i) :: r)
    | _, _ => none

/-- A converted tier entry matches a fiat tier entry: same key, and the pair
is exactly the two `calculateWei` results for that amount. -/
def TierMatch (polPrice : ℚ) (t : String × ℚ) (t' : String × WeiPair) : Prop :=
  t'.1 = t.1 ∧ convertLeaf t.2 polPrice = some t'.2

/-- A converted item value matches a fiat item value: a plain amount becomes
the single converted pair, a tier map becomes an entrywise-matching tier map,
and the shapes never cross over. -/
def ItemMatch (polPrice : ℚ) : FiatVal → WeiVal → Prop
  | .num v, .single p => convertLeaf v polPrice = some p
  | .obj m, .tiers m' => List.Forall₂ (TierMatch polPrice) m m'
  | _, _ => False

/-- A converted category matches a fiat category: same name, entrywise
matching items. -/
def CatMatch (polPrice : ℚ) (c : String × List (String × FiatVal))
    (c' : String × List (String × WeiVal)) : Prop :=
  c'.1 = c.1 ∧ List.Forall₂ (fun i i' => i'.1 = i.1 ∧ ItemMatch polPrice i.2 i'.2) c.2 c'.2

/-! ## Rate cache (src/server.js lines 19-21 and the GET /api/prices/pol
handler, lines 100-121) -/

/-- The constant `POL_CACHE_DURATION = 30 * 60 * 1000` — 30 minutes in
milliseconds (src/server.js line 21). -/
def POL_CACHE_DURATION : ℤ := 30 * 60 * 1000

/-- The hard-coded seed rate `cachedPolPrice = 0.182`
(src/server.js line 19). -/
def initialCachedPolPrice : ℚ := mkRat 182 1000

/-- The two module-level mutable variables of the rate cache:
`cachedPolPrice` and `lastPolFetchTime` (src/server.js lines 19-20). -/
structure RateState where
  cachedPolPrice : ℚ
  lastPolFetchTime : ℤ
deriving DecidableEq, Repr

/-- The rate cache state at process start. -/
def initialRateState : RateState := ⟨initialCachedPolPrice, 0⟩

/-- Outcome of one call to the external quote provider
(`axios.get(...coinmarketcap...)` followed by the optional-chaining field
extraction `r.data?.data?.POL?.quote?.USD?.price`):

* `fetchError` — the request threw (network error, provider error, non-2xx);
* `fetchOk none` — a response arrived but the extracted field is missing or
  is not a finite number (the typeof-number and finiteness checks fail);
* `fetchOk (some q)` — the extracted field is the finite number `q`. -/
inductive FetchResult where
  | fetchError
  | fetchOk (price : Option ℚ)
deriving DecidableEq, Repr

/-- The JSON body returned by GET /api/prices/pol: the `price` field, the
`cached` field (absent in the catch branch), whether the `no_api_key`
warning is present, and whether the `error` field is present. -/
structure PolResponse where
  price : ℚ
  cached : Option Bool
  warning : Bool
  error : Bool
deriving DecidableEq, Repr

/-- The GET /api/prices/pol handler (src/server.js lines 100-121), as a pure
step function.  Inputs: the current cache state, `Date.now()`, whether
`CMC_API_KEY` is configured, and the outcome the provider call would have.
Output: the new cache state, the response body, and whether the provider was
actually called. -/
def polHandler (st : RateState) (now : ℤ) (hasApiKey : Bool) (fetch : FetchResult) :
    RateState × PolResponse × Bool :=
  if now - st.lastPolFetchTime < POL_CACHE_DURATION then
    (st, ⟨st.cachedPolPrice, some true, false, false⟩, false)
  else if hasApiKey = false then
    (st, ⟨st.cachedPolPrice, some true, true, false⟩, false)
  else
    match fetch with
    | .fetchError => (st, ⟨st.cachedPolPrice, none, false, true⟩, true)
    | .fetchOk none => (st, ⟨st.cachedPolPrice, some false, false, false⟩, true)
    | .fetchOk (some q) =>
      if 0 < q then (⟨q, now⟩, ⟨q, some false, false, false⟩, true)
      else (st, ⟨st.cachedPolPrice, some false, false, false⟩, true)

/-- The failure modes of one refresh attempt, as listed by the fail-open
policy: missing credential, thrown provider call, or a value that is not a
finite number strictly greater than zero. -/
def refreshFails (hasApiKey : Bool) (fetch : FetchResult) : Prop :=
  hasApiKey = false ∨ fetch = .fetchError ∨ fetch = .fetchOk none ∨
    ∃ q, fetch = .fetchOk (some q) ∧ q ≤ 0

/-! ## Price store (src/server.js lines 24-35, 69-88) -/

/-- The persisted price document: the `passes` and `cores` category
sub-trees.  The file on disk holds its JSON serialisation. -/
structure StoredDoc where
  passes : List (String × WeiVal)
  cores : List (String × WeiVal)
deriving DecidableEq, Repr

/-- The default fiat spec `DEFAULT_PRICES_USD` (src/server.js lines 24-35), with the boost tier
schedule keyed `"0"` … `"29"` in the numeric enumeration order used by
`Object.entries`. -/
def DEFAULT_PRICES_USD : List (String × List (String × FiatVal)) :=
  [("passes", [("basic", .num (mkRat 8 1)), ("premium", .num (mkRat 15 1)),
               ("ultimate", .num (mkRat 22 1))]),
   ("cores",
    [("boost", .obj [("0", mkRat 5 1), ("1", mkRat 8 1), ("2", mkRat 10 1),
      ("3", mkRat 12 1), ("4", mkRat 14 1), ("5", mkRat 16 1), ("6", mkRat 18 1),
      ("7", mkRat 21 1), ("8", mkRat 24 1), ("9", mkRat 27 1), ("10", mkRat 30 1),
      ("11", mkRat 35 1), ("12", mkRat 40 1), ("13", mkRat 45 1), ("14", mkRat 50 1),
      ("15", mkRat 60 1), ("16", mkRat 65 1), ("17", mkRat 70 1), ("18", mkRat 75 1),
      ("19", mkRat 80 1), ("20", mkRat 85 1), ("21", mkRat 90 1), ("22", mkRat 95 1),
      ("23", mkRat 100 1), ("24", mkRat 110 1), ("25", mkRat 120 1), ("26", mkRat 130 1),
      ("27", mkRat 140 1), ("28", mkRat 150 1), ("29", mkRat 200 1)]),
     ("nft", .num (mkRat 5 1)), ("point", .num (mkRat 20 1))])]

/-- The startup computation `DEFAULT_PRICES = convertPricesUsdToWei(DEFAULT_PRICES_USD, cachedPolPrice)`
(src/server.js line 69), computed once at startup with the seed rate. -/
def DEFAULT_PRICES_DOC : List (String × List (String × WeiVal)) :=
  (convertPricesUsdToWei DEFAULT_PRICES_USD initialCachedPolPrice).getD []

/-- The same default document viewed through its two category fields, as the
handlers access it (`DEFAULT_PRICES.passes`, `DEFAULT_PRICES.cores`). -/
def DEFAULT_PRICES : StoredDoc :=
  ⟨(DEFAULT_PRICES_DOC.lookup "passes").getD [], (DEFAULT_PRICES_DOC.lookup "cores").getD []⟩

/-- The function `readPrices()` (src/server.js lines 77-85): parse the persisted file;
if it is absent or unreadable (`none`), fall back to the compiled-in
default without mutating anything. -/
def readPrices (file : Option StoredDoc) : StoredDoc := file.getD DEFAULT_PRICES

/-- The function `savePrices(prices)` (src/server.js lines 87-88): synchronous
`fs.writeFileSync`; the file afterwards holds exactly the written document. -/
def savePrices (prices : StoredDoc) : Option StoredDoc := some prices

/-! ## Admin gate (src/server.js lines 90-96) -/

/-- The `authenticateAdminKey` middleware: reads the `x-admin-key` header and
rejects when `!providedKey || providedKey !== ADMIN_API_KEY`.  A missing
header and an empty-string header are both falsy, hence rejected. -/
def authenticateAdminKey (adminKey : String) (providedKey : Option String) : Bool :=
  match providedKey with
  | none => false
  | some k => if k = "" then false else k == adminKey

/-! ## Mutating handlers (src/server.js lines 167-233) -/

/-- The JSON body of POST /api/prices/passes; `none` models an absent
(`undefined`) field. -/
structure PassesBody where
  basic : Option ℚ
  premium : Option ℚ
  ultimate : Option ℚ
deriving DecidableEq, Repr

/-- The `boost` field of the POST /api/prices/cores body: either a plain
(non-null, non-array) object of tier amounts, or some other value, which the
handler rejects with `boost_must_be_object`. -/
inductive BoostField where
  | obj (tiers : List (String × ℚ))
  | notObj
deriving DecidableEq, Repr

/-- The JSON body of POST /api/prices/cores. -/
structure CoresBody where
  boost : Option BoostField
  nft : Option ℚ
  point : Option ℚ
deriving DecidableEq, Repr

/-- The responses of the modelled endpoints, tagged by status and payload. -/
inductive ApiResponse where
  | okPol (r : PolResponse)
  | okDoc (d : StoredDoc)
  | okItems (l : List (String × WeiVal))
  | okNovaOnly (l : List (String × Option String))
  | okWrite (l : List (String × WeiVal))
  | okReset (d : StoredDoc)
  | badRequest (code : String)
  | unauthorized
  | serverError
deriving DecidableEq, Repr

/-- The opportunistic in-request rate resolution shared by both POST
handlers (src/server.js lines 173-182 and 203-212): start from the cached
rate in the request-local `polPrice`, and overwrite the local only when the
key is configured and the fetched value is a finite number `> 0`; any
failure is swallowed by the inner `try {} catch {}`. -/
def resolveRate (st : RateState) (hasApiKey : Bool) (fetch : FetchResult) : ℚ :=
  if hasApiKey then
    match fetch with
    | .fetchOk (some q) => if 0 < q then q else st.cachedPolPrice
    | _ => st.cachedPolPrice
  else st.cachedPolPrice

/-- The expression `convertPricesUsdToWei({ passes: passesUsd }, polPrice).passes`
(src/server.js line 184): the converted passes sub-tree, `none` when the
conversion throws. -/
def convertPassesUsd (basic premium ultimate polPrice : ℚ) :
    Option (List (String × WeiVal)) :=
  match convertPricesUsdToWei
      [("passes", [("basic", .num basic), ("premium", .num premium),
                   ("ultimate", .num ultimate)])] polPrice with
  | some doc => some ((doc.lookup "passes").getD [])
  | none => none

/-- The expression `convertPricesUsdToWei({ cores: coresUsd }, polPrice).cores`
(src/server.js line 216), where `coresUsd = { boost: normalizedBoost, nft, point }`. -/
def convertCoresUsd (boost : List (String × ℚ)) (nft point polPrice : ℚ) :
    Option (List (String × WeiVal)) :=
  match convertPricesUsdToWei
      [("cores", [("boost", .obj boost), ("nft", .num nft),
                  ("point", .num point)])] polPrice with
  | some doc => some ((doc.lookup "cores").getD [])
  | none => none

/-- The POST /api/prices/passes handler (src/server.js lines 167-191):
admin gate, field presence check, opportunistic rate fetch into a local,
conversion, read-modify-persist of the document, success response.  Returns
the new rate-cache state (always unchanged), the new file contents, and the
response. -/
def postPassesHandler (adminKey : String) (providedKey : Option String)
    (body : PassesBody) (st : RateState) (hasApiKey : Bool) (fetch : FetchResult)
    (file : Option StoredDoc) : RateState × Option StoredDoc × ApiResponse :=
  if authenticateAdminKey adminKey providedKey = false then (st, file, .unauthorized)
  else
    match body.basic, body.premium, body.ultimate with
    | some b, some p, some u =>
      let polPrice := resolveRate st hasApiKey fetch
      match convertPassesUsd b p u polPrice with
      | some converted =>
        let prices := readPrices file
        let prices' : StoredDoc := { prices with passes := converted }
        (st, savePrices prices', .okWrite converted)
      | none => (st, file, .serverError)
    | _, _, _ => (st, file, .badRequest "missing_fields")

/-- The POST /api/prices/cores handler (src/server.js lines 193-225):
same pipeline as the passes handler, with the extra
`boost_must_be_object` shape check and wholesale replacement of the
`cores` category. -/
def postCoresHandler (adminKey : String) (providedKey : Option String)
    (body : CoresBody) (st : RateState) (hasApiKey : Bool) (fetch : FetchResult)
    (file : Option StoredDoc) : RateState × Option StoredDoc × ApiResponse :=
  if authenticateAdminKey adminKey providedKey = false then (st, file, .unauthorized)
  else
    match body.boost, body.nft, body.point with
    | some boostField, some n, some pt =>
      match boostField with
      | .notObj => (st, file, .badRequest "boost_must_be_object")
      | .obj boost =>
        let polPrice := resolveRate st hasApiKey fetch
        match convertCoresUsd boost n pt polPrice with
        | some converted =>
          let prices := readPrices file
          let prices' : StoredDoc := { prices with cores := converted }
          (st, savePrices prices', .okWrite converted)
        | none => (st, file, .serverError)
    | _, _, _ => (st, file, .badRequest "missing_fields")

/-- The POST /api/prices/reset handler (src/server.js lines 227-233):
admin gate, then overwrite the file with the compiled-in default. -/
def postResetHandler (adminKey : String) (providedKey : Option String)
    (file : Option StoredDoc) : Option StoredDoc × ApiResponse :=
  if authenticateAdminKey adminKey providedKey = false then (file, .unauthorized)
  else (savePrices DEFAULT_PRICES, .okReset DEFAULT_PRICES)

/-! ## Read handlers (src/server.js lines 123-165) -/

/-- GET /api/prices/all: the whole persisted document. -/
def getAllHandler (file : Option StoredDoc) : ApiResponse := .okDoc (readPrices file)

/-- GET /api/prices/passes: the passes sub-tree. -/
def getPassesHandler (file : Option StoredDoc) : ApiResponse :=
  .okItems (readPrices file).passes

/-- GET /api/prices/cores: the cores sub-tree. -/
def getCoresHandler (file : Option StoredDoc) : ApiResponse :=
  .okItems (readPrices file).cores

/-- The reduction `{ novaWei: v.novaWei }` of one stored item: on a nested tier object the
JavaScript property access yields `undefined` (`none`). -/
def novaOnlyOf : WeiVal → Option String
  | .single p => some p.novaWei
  | .tiers _ => none

/-- GET /api/prices/passes/nova-only: the passes sub-tree reduced to its
`novaWei` components. -/
def getPassesNovaOnlyHandler (file : Option StoredDoc) : ApiResponse :=
  .okNovaOnly ((readPrices file).passes.map (fun kv => (kv.1, novaOnlyOf kv.2)))

/-! ## The routed server -/

/-- The whole mutable state of the process: the rate cache and the prices
file (`none` = absent or unparseable). -/
structure ServerState where
  rate : RateState
  file : Option StoredDoc
deriving DecidableEq, Repr

/-- The modelled routes. -/
inductive Route where
  | getPol | getAll | getPasses | getPassesNovaOnly | getCores
  | postPasses | postCores | postReset
deriving DecidableEq, Repr

/-- One incoming request: the `x-admin-key` header, the clock, the provider
configuration and outcome, and the parsed bodies (each handler reads only
the parts relevant to it). -/
structure Request where
  adminKeyHeader : Option String
  now : ℤ
  hasApiKey : Bool
  fetch : FetchResult
  passesBody : PassesBody
  coresBody : CoresBody
deriving DecidableEq, Repr

/-- The three mutating endpoints, all of which are registered behind
`authenticateAdminKey`; every GET route is registered without it. -/
def isMutating : Route → Bool
  | .postPasses | .postCores | .postReset => true
  | _ => false

/-- The request dispatcher: routes a request to its handler and threads the
process state through it. -/
def handleRequest (adminKey : String) (route : Route) (req : Request)
    (s : ServerState) : ServerState × ApiResponse :=
  match route with
  | .getPol =>
    let out := polHandler s.rate req.now req.hasApiKey req.fetch
    (⟨out.1, s.file⟩, .okPol out.2.1)
  | .getAll => (s, getAllHandler s.file)
  | .getPasses => (s, getPassesHandler s.file)
  | .getPassesNovaOnly => (s, getPassesNovaOnlyHandler s.file)
  | .getCores => (s, getCoresHandler s.file)
  | .postPasses =>
    let out := postPassesHandler adminKey req.adminKeyHeader req.passesBody
      s.rate req.hasApiKey req.fetch s.file
    (⟨out.1, out.2.1⟩, out.2.2)
  | .postCores =>
    let out := postCoresHandler adminKey req.adminKeyHeader req.coresBody
      s.rate req.hasApiKey req.fetch s.file
    (⟨out.1, out.2.1⟩, out.2.2)
  | .postReset =>
    let out := postResetHandler adminKey req.adminKeyHeader s.file
    (⟨s.rate, out.1⟩, out.2)

/-- The states the process can be in: the start state (seed rate, any
pre-existing prices file) and everything reachable from it by serving
requests. -/
inductive Reachable (adminKey : String) : ServerState → Prop where
  | init (file : Option StoredDoc) : Reachable adminKey ⟨initialRateState, file⟩
  | step {s : ServerState} (route : Route) (req : Request) :
      Reachable adminKey s → Reachable adminKey (handleRequest adminKey route req s).1

/-! ## Concrete values used by the witnesses -/

/-- The server state right after startup on a fresh directory:
`initPricesFile` has written the default document. -/
def initialServerState : ServerState := ⟨initialRateState, some DEFAULT_PRICES⟩

/-- A request with no admin header, no provider key, and empty bodies. -/
def demoRequest : Request :=
  ⟨none, 0, false, .fetchError, ⟨none, none, none⟩, ⟨none, none, none⟩⟩

/-- A well-formed POST /api/prices/passes body. -/
def demoPassesBody : PassesBody :=
  ⟨some (mkRat 8 1), some (mkRat 15 1), some (mkRat 22 1)⟩

/-- The converted passes sub-tree for `demoPassesBody` at the seed rate. -/
def demoPassesItems : List (String × WeiVal) :=
  (convertPassesUsd (mkRat 8 1) (mkRat 15 1) (mkRat 22 1) initialCachedPolPrice).getD []

/-! ## Helper theorems -/

theorem scale6_eq (q : ℚ) : scale6 q = ⌊q * 1000000 + 1/2⌋ := by
  have h : q * 1000000 + 1/2 =
      ((2 * q.num * 1000000 + q.den : ℤ) : ℚ) / ((2 * q.den : ℕ) : ℚ) := by
    have hd : ((q.den : ℚ)) ≠ 0 := by exact_mod_cast q.den_nz
    conv_lhs => rw [← Rat.num_div_den q]
    push_cast
    field_simp
    ring
  rw [scale6, h, Rat.floor_intCast_div_natCast, Int.fdiv_eq_ediv _ (by positivity)]
  norm_num

theorem digitChar_isDigit {n : ℕ} (h : n < 10) : (Nat.digitChar n).isDigit = true := by
  interval_cases n <;> decide

theorem toDigitsCore_isDigit (f : ℕ) :
    ∀ (n : ℕ) (l : List Char), (∀ c ∈ l, c.isDigit = true) →
      ∀ c ∈ Nat.toDigitsCore 10 f n l, c.isDigit = true := by
  induction f with
  | zero => intro n l hl; simpa [Nat.toDigitsCore] using hl
  | succ f ih =>
    intro n l hl c hc
    simp only [Nat.toDigitsCore] at hc
    split at hc
    · rcases List.mem_cons.mp hc with hc | hc
      · exact hc ▸ digitChar_isDigit (Nat.mod_lt _ (by norm_num))
      · exact hl c hc
    · refine ih _ _ ?_ c hc
      intro c' hc'
      rcases List.mem_cons.mp hc' with hc' | hc'
      · exact hc' ▸ digitChar_isDigit (Nat.mod_lt _ (by norm_num))
      · exact hl c' hc'

/-- Every character of `Nat.repr n` is a decimal digit: in particular the
string contains no decimal point, sign, exponent marker or any other
non-digit character. -/
theorem natRepr_isDigit (n : ℕ) : ∀ c ∈ (Nat.repr n).data, c.isDigit = true := by
  intro c hc
  exact toDigitsCore_isDigit (n + 1) n [] (by intro c h; cases h) c hc

theorem convertTierMap_forall₂ (polPrice : ℚ) :
    ∀ (m : List (String × ℚ)) (m' : List (String × WeiPair)),
      convertTierMap polPrice m = some m' → List.Forall₂ (TierMatch polPrice) m m' := by
  intro m
  induction m with
  | nil => intro m' h; simp only [convertTierMap, Option.some.injEq] at h; subst h; constructor
  | cons hd tl ih =>
    intro m' h
    obtain ⟨idx, usd⟩ := hd
    simp only [convertTierMap] at h
    cases hp : convertLeaf usd polPrice with
    | none => rw [hp] at h; exact absurd h (by simp)
    | some p =>
      cases hr : convertTierMap polPrice tl with
      | none => rw [hp, hr] at h; exact absurd h (by simp)
      | some r =>
        rw [hp, hr] at h
        simp only [Option.some.injEq] at h
        subst h
        exact List.Forall₂.cons ⟨rfl, hp⟩ (ih r hr)

theorem convertItems_forall₂ (polPrice : ℚ) :
    ∀ (items : List (String × FiatVal)) (items' : List (String × WeiVal)),
      convertItems polPrice items = some items' →
      List.Forall₂ (fun i i' => i'.1 = i.1 ∧ ItemMatch polPrice i.2 i'.2) items items' := by
  intro items
  induction items with
  | nil => intro items' h; simp only [convertItems, Option.some.injEq] at h; subst h; constructor
  | cons hd tl ih =>
    intro items' h
    obtain ⟨k, v⟩ := hd
    cases v with
    | num q =>
      simp only [convertItems] at h
      cases hp : convertLeaf q polPrice with
      | none => rw [hp] at h; exact absurd h (by simp)
      | some p =>
        cases hr : convertItems polPrice tl with
        | none => rw [hp, hr] at h; exact absurd h (by simp)
        | some r =>
          rw [hp, hr] at h
          simp only [Option.some.injEq] at h
          subst h
          exact List.Forall₂.cons ⟨rfl, hp⟩ (ih r hr)
    | obj m =>
      simp only [convertItems] at h
      cases hp : convertTierMap polPrice m with
      | none => rw [hp] at h; exact absurd h (by simp)
      | some m' =>
        cases hr : convertItems polPrice tl with
        | none => rw [hp, hr] at h; exact absurd h (by simp)
        | some r =>
          rw [hp, hr] at h
          simp only [Option.some.injEq] at h
          subst h
          exact List.Forall₂.cons ⟨rfl, convertTierMap_forall₂ polPrice m m' hp⟩ (ih r hr)

/-! ## Claim C1 -/

/-- C1, counterexample: the claim quantifies over every token unit price
`r > 0`, but for `r = 10⁻⁷ > 0` the scaled price `Math.round(r * 10⁶)`
is `0`, so `calculateWei(1, 10⁻⁷)` throws a `RangeError` (division by
zero) instead of returning any string. -/
theorem calculateWei_tiny_rate_throws :
    0 ≤ (mkRat 1 1) ∧ 0 < (mkRat 1 10000000) ∧
      calculateWei (mkRat 1 1) (mkRat 1 10000000) = none := by decide

/-- C1 (amended): for every fiat amount `a ≥ 0` and every token unit price
`r` whose 6-digit scaling `round(r·10⁶)` is at least 1 (rather than every
`r > 0`), `calculateWei a r` returns exactly the base-10 string of the
truncating integer division `(round(a·10⁶) · 10¹⁸) tdiv round(r·10⁶)`
computed in exact integer arithmetic (`round` being JavaScript
`Math.round`, i.e. `⌊· + 1/2⌋`), and that string consists of decimal
digits only — no decimal point, sign or exponent. -/
theorem calculateWei_exact_formula (a r : ℚ) (ha : 0 ≤ a) (hr : 1 ≤ scale6 r) :
    calculateWei a r =
      some (Nat.repr ((Int.tdiv (⌊a * 1000000 + 1/2⌋ * 10 ^ 18) ⌊r * 1000000 + 1/2⌋).toNat)) ∧
    ∀ c ∈ (Nat.repr ((Int.tdiv (⌊a * 1000000 + 1/2⌋ * 10 ^ 18) ⌊r * 1000000 + 1/2⌋).toNat)).data,
      c.isDigit = true := by
  have hA : 0 ≤ scale6 a := by
    rw [scale6_eq]
    refine Int.floor_nonneg.mpr ?_
    have h1 : (0:ℚ) ≤ a * 1000000 := mul_nonneg ha (by norm_num)
    linarith
  have h0 : ¬ (scale6 r = 0) := by omega
  have htd : 0 ≤ Int.tdiv (scale6 a * WEI) (scale6 r) :=
    Int.tdiv_nonneg (mul_nonneg hA (by norm_num [WEI])) (by omega)
  constructor
  · show (if scale6 r = 0 then none
      else some (intToString (Int.tdiv (scale6 a * WEI) (scale6 r)))) = _
    rw [if_neg h0, intToString, if_neg (not_lt.mpr htd), ← scale6_eq a, ← scale6_eq r]
    norm_num [WEI]
  · intro c hc
    exact natRepr_isDigit _ c hc

/-- C1 witness: `a = 7`, `r = 1/2`. -/
theorem calculateWei_exact_formula_witness :
    calculateWei (mkRat 7 1) (mkRat 1 2) =
      some (Nat.repr ((Int.tdiv (⌊(mkRat 7 1) * 1000000 + 1/2⌋ * 10 ^ 18)
        ⌊(mkRat 1 2) * 1000000 + 1/2⌋).toNat)) ∧
    ∀ c ∈ (Nat.repr ((Int.tdiv (⌊(mkRat 7 1) * 1000000 + 1/2⌋ * 10 ^ 18)
        ⌊(mkRat 1 2) * 1000000 + 1/2⌋).toNat)).data, c.isDigit = true :=
  calculateWei_exact_formula (mkRat 7 1) (mkRat 1 2) (by decide) (by decide)

/-! ## Claim C2 -/

/-- C2, counterexample: `calculateWei` contains no validation at all.
With `r = -1/2 ≤ 0` and `a = 1` it returns the negative quotient string
`"-2000000000000000000"` instead of failing with an `InvalidRate` error,
and with `a = -1 < 0`, `r = 1/2` it returns the same negative string
instead of failing with an `InvalidAmount` error. -/
theorem calculateWei_negative_inputs_no_error :
    mkRat (-1) 2 ≤ 0 ∧
      calculateWei (mkRat 1 1) (mkRat (-1) 2) = some "-2000000000000000000" ∧
    mkRat (-1) 1 < 0 ∧
      calculateWei (mkRat (-1) 1) (mkRat 1 2) = some "-2000000000000000000" := by decide

/-- C2 (amended): `calculateWei` performs no input validation and raises
neither an `InvalidRate` nor an `InvalidAmount` error.  It fails exactly
when `round(r·10⁶) = 0` — which covers `r = 0` and every `|r| < 5·10⁻⁷`,
including positive ones — and that failure is a raw BigInt
division-by-zero `RangeError`.  For every other `r`, including negative
ones, and every `a`, including negative ones, it returns the quotient
string; when `a` scales positive and `r` scales negative the returned
value is a non-positive magnitude. -/
theorem calculateWei_no_validation (a r : ℚ) :
    (calculateWei a r = none ↔ scale6 r = 0) ∧
    (scale6 r ≠ 0 →
      calculateWei a r = some (intToString (Int.tdiv (scale6 a * WEI) (scale6 r)))) ∧
    (scale6 r < 0 → 0 ≤ scale6 a → Int.tdiv (scale6 a * WEI) (scale6 r) ≤ 0) := by
  refine ⟨?_, ?_, ?_⟩
  · show (if scale6 r = 0 then none
      else some (intToString (Int.tdiv (scale6 a * WEI) (scale6 r)))) = none ↔ _
    constructor
    · intro h
      by_contra hne
      rw [if_neg hne] at h
      exact Option.noConfusion h
    · intro h
      rw [if_pos h]
  · intro h
    show (if scale6 r = 0 then none
      else some (intToString (Int.tdiv (scale6 a * WEI) (scale6 r)))) = _
    rw [if_neg h]
  · intro hneg hnn
    exact Int.tdiv_nonpos (mul_nonneg hnn (by norm_num [WEI])) (le_of_lt hneg)

/-- C2 witness: at `a = 1`, `r = 0` the conversion fails (division by
zero), and at `a = 1`, `r = -1/2` it returns the plain quotient string. -/
theorem calculateWei_no_validation_witness :
    calculateWei (mkRat 1 1) (mkRat 0 1) = none :=
  (calculateWei_no_validation (mkRat 1 1) (mkRat 0 1)).1.mpr (by decide)

/-! ## Claim C7 -/

/-- C7, counterexample: the claim quantifies over every positive rate, but
at the positive rate `r = 10⁻⁷` the call `calculateWei(0, r)` throws
(division by zero after the rate scales to `0`) instead of returning
`"0"`. -/
theorem calculateWei_zero_amount_tiny_rate :
    0 < (mkRat 1 10000000) ∧ calculateWei (mkRat 0 1) (mkRat 1 10000000) = none := by decide

/-- C7 (amended): `calculateWei 0 r` returns the string `"0"` for every
rate `r` whose 6-digit scaling is non-zero (in particular every
`r ≥ 5·10⁻⁷`); for the remaining positive rates, those below `5·10⁻⁷`,
the call throws instead. -/
theorem calculateWei_zero_amount (r : ℚ) (hr : scale6 r ≠ 0) :
    calculateWei 0 r = some "0" := by
  have h0 : scale6 (0:ℚ) = 0 := by decide
  show (if scale6 r = 0 then none
    else some (intToString (Int.tdiv (scale6 (0:ℚ) * WEI) (scale6 r)))) = some "0"
  rw [if_neg hr, h0, zero_mul, Int.zero_tdiv]
  rfl

/-- C7 witness: `r = 1/2`. -/
theorem calculateWei_zero_amount_witness :
    calculateWei 0 (mkRat 1 2) = some "0" :=
  calculateWei_zero_amount (mkRat 1 2) (by decide)

/-! ## Claim C3 -/

/-- C3: whenever `convertPricesUsdToWei` returns a document, that document
matches the input spec category by category, item by item, and — for nested
tier maps — tier by tier: keys are preserved exactly and in the same
enumeration order (none reordered, renamed, added or dropped), and every
leaf amount `u` is replaced by precisely the pair
`{polWei := calculateWei u polPrice, novaWei := calculateWei u NOVA_PRICE}`
with `NOVA_PRICE = 0.00007`. -/
theorem convertPricesUsdToWei_structure (spec : List (String × List (String × FiatVal)))
    (polPrice : ℚ) (out : List (String × List (String × WeiVal)))
    (h : convertPricesUsdToWei spec polPrice = some out) :
    List.Forall₂ (CatMatch polPrice) spec out := by
  induction spec generalizing out with
  | nil =>
    simp only [convertPricesUsdToWei, Option.some.injEq] at h
    subst h; constructor
  | cons hd tl ih =>
    obtain ⟨category, items⟩ := hd
    simp only [convertPricesUsdToWei] at h
    cases hi : convertItems polPrice items with
    | none => rw [hi] at h; exact absurd h (by simp)
    | some i =>
      cases hrest : convertPricesUsdToWei tl polPrice with
      | none => rw [hi, hrest] at h; exact absurd h (by simp)
      | some rest =>
        rw [hi, hrest] at h
        simp only [Option.some.injEq] at h
        subst h
        exact List.Forall₂.cons ⟨rfl, convertItems_forall₂ polPrice items i hi⟩ (ih rest hrest)

/-- C3 witness: the compiled-in default spec, whose `boost` tier map has
exactly the tier keys `"0"` … `"29"`, converted at the seed rate. -/
theorem convertPricesUsdToWei_structure_witness :
    List.Forall₂ (CatMatch initialCachedPolPrice) DEFAULT_PRICES_USD DEFAULT_PRICES_DOC :=
  convertPricesUsdToWei_structure DEFAULT_PRICES_USD initialCachedPolPrice
    DEFAULT_PRICES_DOC (by rfl)

/-! ## Claim C4 -/

/-- C4: whenever a rate-refresh attempt fails in any way — missing
credential, thrown provider call, or a returned value that is not a finite
number strictly greater than zero — the GET /api/prices/pol handler leaves
both `cachedPolPrice` and `lastPolFetchTime` untouched and answers with the
previous cached value instead of raising an error (fail-open). -/
theorem rateRefresh_fail_open (st : RateState) (now : ℤ) (hasApiKey : Bool)
    (fetch : FetchResult) (h : refreshFails hasApiKey fetch) :
    (polHandler st now hasApiKey fetch).1 = st ∧
    (polHandler st now hasApiKey fetch).2.1.price = st.cachedPolPrice := by
  unfold polHandler
  split_ifs with hwin hkey
  · exact ⟨rfl, rfl⟩
  · exact ⟨rfl, rfl⟩
  · rcases h with hk | hf | hf | ⟨q, hf, hq⟩
    · exact absurd hk hkey
    · subst hf; exact ⟨rfl, rfl⟩
    · subst hf; exact ⟨rfl, rfl⟩
    · subst hf
      simp only
      rw [if_neg (not_lt.mpr hq)]
      exact ⟨rfl, rfl⟩

/-- C4 witness: an expired cache window with no provider credential
configured — the refresh attempt fails, the state is untouched and the
seed value is returned. -/
theorem rateRefresh_fail_open_witness :
    (polHandler initialRateState 99999999 false .fetchError).1 = initialRateState ∧
    (polHandler initialRateState 99999999 false .fetchError).2.1.price =
      initialRateState.cachedPolPrice :=
  rateRefresh_fail_open initialRateState 99999999 false .fetchError (Or.inl rfl)

/-! ## Claim C5 -/

/-- C5: a GET /api/prices/pol request arriving while
`now - lastPolFetchTime < POL_CACHE_DURATION` (30 minutes) is answered
entirely from the cache: the provider is never called, the state is
unchanged, and the response carries the cached price with `cached: true`—
whatever outcome a provider call would have had. -/
theorem rateCache_within_window (st : RateState) (now : ℤ) (hasApiKey : Bool)
    (fetch : FetchResult) (h : now - st.lastPolFetchTime < POL_CACHE_DURATION) :
    polHandler st now hasApiKey fetch =
      (st, ⟨st.cachedPolPrice, some true, false, false⟩, false) := by
  unfold polHandler
  rw [if_pos h]

/-- C5 witness: at `now = 0` with a fresh cache, even with a credential
configured and a provider that would return a new price, the handler
answers from the cache and does not call the provider. -/
theorem rateCache_within_window_witness :
    polHandler initialRateState 0 true (.fetchOk (some (mkRat 1 1))) =
      (initialRateState, ⟨initialRateState.cachedPolPrice, some true, false, false⟩, false) :=
  rateCache_within_window initialRateState 0 true (.fetchOk (some (mkRat 1 1))) (by decide)

/-! ## Rate-cache preservation helpers -/

theorem postPassesHandler_rate_eq (adminKey : String) (providedKey : Option String)
    (body : PassesBody) (st : RateState) (hasApiKey : Bool) (fetch : FetchResult)
    (file : Option StoredDoc) :
    (postPassesHandler adminKey providedKey body st hasApiKey fetch file).1 = st := by
  unfold postPassesHandler
  split_ifs with h
  · rfl
  · cases body.basic <;> cases body.premium <;> cases body.ultimate <;>
      (simp only
       try (rename_i b p u
            cases convertPassesUsd b p u (resolveRate st hasApiKey fetch) <;> rfl))

theorem postCoresHandler_rate_eq (adminKey : String) (providedKey : Option String)
    (body : CoresBody) (st : RateState) (hasApiKey : Bool) (fetch : FetchResult)
    (file : Option StoredDoc) :
    (postCoresHandler adminKey providedKey body st hasApiKey fetch file).1 = st := by
  unfold postCoresHandler
  split_ifs with h
  · rfl
  · cases body.boost with
    | none => cases body.nft <;> cases body.point <;> rfl
    | some bf =>
      cases body.nft <;> cases body.point <;> cases bf <;>
        (simp only
         try (rename_i n pt boost
              cases convertCoresUsd boost n pt (resolveRate st hasApiKey fetch) <;> rfl))

theorem polHandler_rate_pos (st : RateState) (now : ℤ) (hasApiKey : Bool)
    (fetch : FetchResult) (h : 0 < st.cachedPolPrice) :
    0 < (polHandler st now hasApiKey fetch).1.cachedPolPrice := by
  unfold polHandler
  split_ifs with hwin hkey
  · exact h
  · exact h
  · cases fetch with
    | fetchError => exact h
    | fetchOk p =>
      cases p with
      | none => exact h
      | some q =>
        by_cases hq : 0 < q
        · simp only [if_pos hq]
          exact hq
        · simp only [if_neg hq]
          exact h

/-! ## Claim C10 -/

/-- C10: neither POST /api/prices/passes nor POST /api/prices/cores ever
touches the rate cache: the opportunistically fetched rate lives in the
request-local `polPrice` only, and `cachedPolPrice` / `lastPolFetchTime`
are returned unchanged on every path — authorised or not, fetch succeeded
or not, conversion succeeded or not. -/
theorem post_handlers_preserve_rate_cache (adminKey : String)
    (providedKey : Option String) (pb : PassesBody) (cb : CoresBody)
    (st : RateState) (hasApiKey : Bool) (fetch : FetchResult)
    (file : Option StoredDoc) :
    (postPassesHandler adminKey providedKey pb st hasApiKey fetch file).1 = st ∧
    (postCoresHandler adminKey providedKey cb st hasApiKey fetch file).1 = st :=
  ⟨postPassesHandler_rate_eq adminKey providedKey pb st hasApiKey fetch file,
   postCoresHandler_rate_eq adminKey providedKey cb st hasApiKey fetch file⟩

/-! ## Claim C6 -/

/-- C6: every POST to a mutating endpoint (/api/prices/passes, /cores,
/reset) whose `x-admin-key` header is absent, empty, or different from the
configured admin key is answered `401 unauthorized` and leaves the whole
server state — in particular the persisted price document — untouched;
and no GET price endpoint consults the header at all: its response is
identical for every header value and is never `unauthorized`. -/
theorem adminGate_rejects_and_reads_open (adminKey : String) (route : Route)
    (req : Request) (s : ServerState) :
    (isMutating route = true →
      authenticateAdminKey adminKey req.adminKeyHeader = false →
      handleRequest adminKey route req s = (s, .unauthorized)) ∧
    (isMutating route = false →
      (handleRequest adminKey route req s).2 ≠ .unauthorized ∧
      ∀ k', handleRequest adminKey route { req with adminKeyHeader := k' } s =
        handleRequest adminKey route req s) := by
  constructor
  · intro hm hauth
    cases route <;>
      simp_all [handleRequest, isMutating, postPassesHandler, postCoresHandler,
        postResetHandler]
  · intro hm
    cases route <;> simp_all [isMutating] <;>
      exact ⟨by simp [handleRequest, getAllHandler, getPassesHandler,
        getPassesNovaOnlyHandler, getCoresHandler], fun k' => rfl⟩

/-- C6 witness: POST /api/prices/reset with no `x-admin-key` header is
rejected and the state is unchanged. -/
theorem adminGate_rejects_and_reads_open_witness :
    handleRequest "secret" .postReset demoRequest initialServerState =
      (initialServerState, .unauthorized) :=
  (adminGate_rejects_and_reads_open "secret" .postReset demoRequest
    initialServerState).1 rfl rfl

/-! ## Claim C9 -/

/-- C9: a successful category write replaces exactly the named category of
the persisted document, wholesale, with the converted sub-tree (computed
from the request body at the request-resolved rate), persists it before the
success response is produced, and leaves the other category exactly as it
was: POST /api/prices/passes keeps `cores` unchanged, and POST
/api/prices/cores keeps `passes` unchanged. -/
theorem write_category_frame (adminKey : String) (providedKey : Option String)
    (pb : PassesBody) (cb : CoresBody) (st : RateState) (hasApiKey : Bool)
    (fetch : FetchResult) (file : Option StoredDoc) (doc : StoredDoc)
    (hfile : file = some doc) :
    (∀ items,
      (postPassesHandler adminKey providedKey pb st hasApiKey fetch file).2.2 =
        .okWrite items →
      (postPassesHandler adminKey providedKey pb st hasApiKey fetch file).2.1 =
        some ⟨items, doc.cores⟩ ∧
      ∃ b p u, pb.basic = some b ∧ pb.premium = some p ∧ pb.ultimate = some u ∧
        convertPassesUsd b p u (resolveRate st hasApiKey fetch) = some items) ∧
    (∀ items,
      (postCoresHandler adminKey providedKey cb st hasApiKey fetch file).2.2 =
        .okWrite items →
      (postCoresHandler adminKey providedKey cb st hasApiKey fetch file).2.1 =
        some ⟨doc.passes, items⟩ ∧
      ∃ boost n pt, cb.boost = some (.obj boost) ∧ cb.nft = some n ∧
        cb.point = some pt ∧
        convertCoresUsd boost n pt (resolveRate st hasApiKey fetch) = some items) := by
  subst hfile
  obtain ⟨basic, premium, ultimate⟩ := pb
  obtain ⟨boostF, nftF, pointF⟩ := cb
  constructor
  · intro items h
    unfold postPassesHandler at h ⊢
    cases hauth : authenticateAdminKey adminKey providedKey with
    | false =>
      rw [if_pos hauth] at h
      exact absurd h (by simp)
    | true =>
      rw [if_neg (by simp [hauth])] at h ⊢
      cases basic with
      | none => exact absurd h (by simp)
      | some b =>
        cases premium with
        | none => exact absurd h (by simp)
        | some p =>
          cases ultimate with
          | none => exact absurd h (by simp)
          | some u =>
            simp only at h ⊢
            cases hconv : convertPassesUsd b p u (resolveRate st hasApiKey fetch) with
            | none => rw [hconv] at h; exact absurd h (by simp)
            | some conv =>
              rw [hconv] at h
              have h2 : ApiResponse.okWrite conv = ApiResponse.okWrite items := h
              injection h2 with h3
              subst h3
              exact ⟨rfl, b, p, u, rfl, rfl, rfl, hconv⟩
  · intro items h
    unfold postCoresHandler at h ⊢
    cases hauth : authenticateAdminKey adminKey providedKey with
    | false =>
      rw [if_pos hauth] at h
      exact absurd h (by simp)
    | true =>
      rw [if_neg (by simp [hauth])] at h ⊢
      cases boostF with
      | none => exact absurd h (by simp)
      | some bf =>
        cases nftF with
        | none => exact absurd h (by simp)
        | some n =>
          cases pointF with
          | none => exact absurd h (by simp)
          | some pt =>
            cases bf with
            | notObj => exact absurd h (by simp)
            | obj boost =>
              simp only at h ⊢
              cases hconv : convertCoresUsd boost n pt (resolveRate st hasApiKey fetch) with
              | none => rw [hconv] at h; exact absurd h (by simp)
              | some conv =>
                rw [hconv] at h
                have h2 : ApiResponse.okWrite conv = ApiResponse.okWrite items := h
                injection h2 with h3
                subst h3
                exact ⟨rfl, boost, n, pt, rfl, rfl, rfl, hconv⟩

/-- C9 witness: an authorised POST /api/prices/passes against the default
document persists the converted passes and keeps the default cores. -/
theorem write_category_frame_witness :
    (postPassesHandler "secret" (some "secret") demoPassesBody initialRateState
      false .fetchError (some DEFAULT_PRICES)).2.1 =
        some ⟨demoPassesItems, DEFAULT_PRICES.cores⟩ ∧
    ∃ b p u, demoPassesBody.basic = some b ∧ demoPassesBody.premium = some p ∧
      demoPassesBody.ultimate = some u ∧
      convertPassesUsd b p u (resolveRate initialRateState false .fetchError) =
        some demoPassesItems :=
  (write_category_frame "secret" (some "secret") demoPassesBody
    ⟨none, none, none⟩ initialRateState false .fetchError (some DEFAULT_PRICES)
    DEFAULT_PRICES rfl).1 demoPassesItems (by rfl)

/-! ## Claim C8 -/

/-- C8: in every reachable server state the cached exchange rate is
strictly positive: it starts at the hard-coded seed `0.182` and is replaced
only by a fetched value that passed the typeof-number, finiteness and
positivity validation, so every read of the cache observes a
positive (finite, being a rational of the model) rate. -/
theorem cachedPolPrice_always_positive (adminKey : String) (s : ServerState)
    (h : Reachable adminKey s) : 0 < s.rate.cachedPolPrice := by
  induction h with
  | init file => exact (by decide : 0 < initialRateState.cachedPolPrice)
  | step route req hr ih =>
    cases route with
    | getPol => exact polHandler_rate_pos _ _ _ _ ih
    | getAll => exact ih
    | getPasses => exact ih
    | getPassesNovaOnly => exact ih
    | getCores => exact ih
    | postPasses =>
      show 0 < (postPassesHandler _ _ _ _ _ _ _).1.cachedPolPrice
      rw [postPassesHandler_rate_eq]
      exact ih
    | postCores =>
      show 0 < (postCoresHandler _ _ _ _ _ _ _).1.cachedPolPrice
      rw [postCoresHandler_rate_eq]
      exact ih
    | postReset => exact ih

/-- C8 witness: the start state, whose cached rate is the seed `0.182`. -/
theorem cachedPolPrice_always_positive_witness :
    0 < initialServerState.rate.cachedPolPrice :=
  cachedPolPrice_always_positive "secret" initialServerState
    (Reachable.init (some DEFAULT_PRICES))
